import Mathlib

/-!
Verification of the client-side moderation pipeline of the socio.io browser
extension (content script `extension/content-new.js`, backend
`backend/content_filter.js`).

Strings from the page are modelled as `List Char`; DOM elements are modelled
as records carrying exactly the fields the content script reads and writes.
JavaScript string primitives (`toLowerCase`, `trim`, `\b` word boundaries,
`includes`) are modelled for ASCII data, which covers every configured word
list and class name in the source.
-/

/-- Word characters as matched by the JavaScript regex class `\w`
(ASCII letters, digits and underscore), used by the `\b` boundaries in the
fallback word matching of `processTextElement`. -/
def isWordChar (c : Char) : Bool :=
  c.isAlpha || c.isDigit || c = '_'

/-- Decides whether `w` is a leading segment of `t` (character-wise equality). -/
def listStartsWith : List Char → List Char → Bool
  | [], _ => true
  | _ :: _, [] => false
  | w :: ws, t :: ts => w == t && listStartsWith ws ts

/-- Decides whether `needle` occurs as a contiguous segment of `hay`
(the JavaScript `String.prototype.includes`). -/
def containsSub (needle : List Char) : List Char → Bool
  | [] => listStartsWith needle []
  | c :: rest => listStartsWith needle (c :: rest) || containsSub needle rest

/-- After the matched word, the next character (if any) must not be a word
character, which is the trailing `\b` of the regex `\b<word>\b` for a word
ending in a word character. -/
def boundaryAfter (word text : List Char) : Bool :=
  match text.drop word.length with
  | [] => true
  | c :: _ => !isWordChar c

/-- Scans `text` for an occurrence of `word` preceded and followed by a word
boundary; `prevIsWord` records whether the character just before the current
position is a word character. Models `new RegExp("\\b" + word + "\\b").test`
for a pattern that starts and ends with a word character, as every word in
the fallback lists does. -/
def matchesWholeWordAux (word : List Char) : List Char → Bool → Bool
  | [], prev => !prev && listStartsWith word [] && boundaryAfter word []
  | c :: rest, prev =>
    (!prev && listStartsWith word (c :: rest) && boundaryAfter word (c :: rest))
      || matchesWholeWordAux word rest (isWordChar c)

/-- Whole-word occurrence of `word` in `text` (word boundaries on both sides). -/
def matchesWholeWord (word text : List Char) : Bool :=
  matchesWholeWordAux word text false

/-- Character-wise lowering, modelling `String.prototype.toLowerCase` on
ASCII text. -/
def toLowerList (t : List Char) : List Char :=
  t.map Char.toLower

/-- The fixed profanity list of the client-side fallback in
`processTextElement` (content-new.js line 1625). -/
def profanityWordsFallback : List (List Char) :=
  ["fuck".toList, "shit".toList, "asshole".toList]

/-- The fixed hate-speech list of the client-side fallback in
`processTextElement` (content-new.js line 1626). -/
def hateWordsFallback : List (List Char) :=
  ["nigger".toList, "faggot".toList, "kill all".toList]

/-- The profanity check of the fallback: some listed word occurs as a whole
word in the lowercased text (content-new.js lines 1628-1631). -/
def fallbackIsProfanity (text : List Char) : Bool :=
  profanityWordsFallback.any (fun w => matchesWholeWord w (toLowerList text))

/-- The hate-speech check of the fallback (content-new.js lines 1633-1636). -/
def fallbackIsHateSpeech (text : List Char) : Bool :=
  hateWordsFallback.any (fun w => matchesWholeWord w (toLowerList text))

/-- The verdict actions of the analysis service, as the closed variant the
pipeline consumes. -/
inductive FilterAction
  | allow
  | remove
  | encrypt
  deriving DecidableEq, Repr

/-- The verdict produced by the local text fallback of `processTextElement`
(content-new.js lines 1622-1653): `remove` when a listed word matches,
`allow` otherwise. -/
def textFallbackAction (text : List Char) : FilterAction :=
  if fallbackIsProfanity text || fallbackIsHateSpeech text then
    FilterAction.remove
  else
    FilterAction.allow

/-- Outcome of one queue item, as reported by `processTextElement` and the
image handlers (the `status` field of the resolved object). -/
inductive ProcStatus
  | skipped
  | filtered
  | kept
  | errored
  deriving DecidableEq, Repr

/-- How the analysis request of `processTextElement` ends: either the fetch
and JSON parse succeed and yield a verdict action, or the request throws and
the catch block runs the local fallback. -/
inductive AnalysisOutcome
  | response (action : FilterAction)
  | networkFailure
  deriving DecidableEq, Repr

/-- A text-bearing DOM element, restricted to the state `processTextElement`
and `restoreOriginalContent` read and write: its displayed text, the
`data-original-text` attribute, the `socioio-filtered-text` class, and
whether a moderation indicator node is attached next to it. -/
structure TextElem where
  isConnected : Bool
  textContent : List Char
  originalTextAttr : Option (List Char)
  filteredClass : Bool
  hasIndicator : Bool
  deriving DecidableEq, Repr

/-- Leading and trailing whitespace removal, modelling
`String.prototype.trim` on ASCII text. -/
def trimList (t : List Char) : List Char :=
  ((t.dropWhile Char.isWhitespace).reverse.dropWhile Char.isWhitespace).reverse

/-- The replacement text `processTextElement` displays on a `remove` verdict
(content-new.js lines 1587-1603): a fixed message for short text, head and
tail around a notice for medium text, and a first-sentence preview for long
text. -/
def filteredDisplayText (text : List Char) : List Char :=
  if text.length < 30 then
    "[Content filtered]".toList
  else if text.length < 100 then
    text.take 10 ++ "... [Content filtered] ...".toList ++ text.drop (text.length - 10)
  else
    let firstSentence := text.takeWhile (fun c => c ≠ '.')
    let preview :=
      if firstSentence.length > 50 then firstSentence.take 50 ++ "...".toList
      else firstSentence
    preview ++ "\n\n[Additional content filtered]".toList

/-- The displayed text of the fallback filter branch of `processTextElement`
(content-new.js line 1640). -/
def fallbackFilteredMessage : List Char :=
  "[Content filtered - click indicator to view]".toList

/-- The synchronous phase of `processTextElement` that runs before the
analysis request (content-new.js lines 1542-1560): skip a detached element,
skip empty or short trimmed text, and otherwise store the trimmed text in
the `data-original-text` attribute; returns the updated element together
with the trimmed text that will be sent for analysis. -/
def processTextElementPre (e : TextElem) : Except ProcStatus (TextElem × List Char) :=
  if !e.isConnected then
    Except.error ProcStatus.skipped
  else if trimList e.textContent = [] then
    Except.error ProcStatus.skipped
  else if (trimList e.textContent).length < 5 then
    Except.error ProcStatus.skipped
  else
    Except.ok
      ({ e with originalTextAttr := some (trimList e.textContent) },
       trimList e.textContent)

/-- The whole of `processTextElement` (content-new.js lines 1540-1659), with
the analysis request abstracted into its outcome: after the pre-request
phase, a successful response is applied (only the `remove` action mutates
the element; `allow`, and any other action such as `encrypt`, falls through
to `kept`), and a failed request runs the whole-word fallback, which filters
exactly on a profanity or hate-speech match. -/
def processTextElement (e : TextElem) (outcome : AnalysisOutcome) :
    TextElem × ProcStatus :=
  match processTextElementPre e with
  | Except.error st => (e, st)
  | Except.ok (e1, text) =>
    match outcome with
    | AnalysisOutcome.response action =>
      if action ≠ FilterAction.allow then
        if action = FilterAction.remove then
          ({ e1 with
              textContent := filteredDisplayText text
              filteredClass := true
              hasIndicator := true },
           ProcStatus.filtered)
        else (e1, ProcStatus.kept)
      else (e1, ProcStatus.kept)
    | AnalysisOutcome.networkFailure =>
      if fallbackIsProfanity text || fallbackIsHateSpeech text then
        ({ e1 with
            textContent := fallbackFilteredMessage
            filteredClass := true
            hasIndicator := true },
         ProcStatus.filtered)
      else (e1, ProcStatus.kept)

/-- The per-element text branch of `restoreOriginalContent` (content-new.js
lines 2167-2178): for an element carrying the `socioio-filtered-text` class,
a truthy `data-original-text` is written back into the displayed text and
the attribute is removed; the class is cleared either way. -/
def restoreTextElem (e : TextElem) : TextElem :=
  if e.filteredClass then
    match e.originalTextAttr with
    | some o =>
      if o ≠ [] then
        { e with textContent := o, originalTextAttr := none, filteredClass := false }
      else
        { e with filteredClass := false }
    | none => { e with filteredClass := false }
  else e

/-- One element under the full restore sweep: `restoreOriginalContent` first
removes every indicator node in the document (content-new.js line 2132) and
then restores each filtered text element. -/
def restoreSweepElem (e : TextElem) : TextElem :=
  restoreTextElem { e with hasIndicator := false }

/-- The response of the image analysis endpoint as the pipeline consumes
it: it carries an `action` like the text endpoint, and an `overall_safety`
classification. `processImage` reads only `overall_safety`; the `action`
field is never read on the image path. -/
structure ImageAnalysisResponse where
  action : FilterAction
  overallSafety : List Char
  deriving DecidableEq, Repr

/-- An image element, restricted to the state the image applier and the
restore sweep read and write: whether its inline style blurs it, the
`data-original-style` attribute saved by `processImage` (the recorded
boolean is whether that saved style itself blurred), the
`socioio-filtered-image` class, whether an overlay node covers it in the
document, whether it was moved inside a `socioio-image-wrapper`, and
whether it is attached to the document. -/
structure ImgNode where
  blurred : Bool
  originalStyleSaved : Option Bool
  filteredImgClass : Bool
  hasOverlay : Bool
  inWrapper : Bool
  attachedToDocument : Bool
  deriving DecidableEq, Repr

/-- `addOverlayToImage` (content-new.js lines 1802-1912; of the two
definitions of that name the later one wins): unless an overlay is already
attached, the image gets the `socioio-filtered-image` class and a blur,
and a `socioio-image-wrapper` is inserted in its place with the image and
the overlay moved inside it. -/
def addOverlayToImageStep (img : ImgNode) : ImgNode :=
  if img.hasOverlay then img
  else
    { img with
        blurred := true
        filteredImgClass := true
        inWrapper := true
        hasOverlay := true }

/-- The verdict-application step of `processImage` (content-new.js lines
956-987): on entry the current style is saved into `data-original-style`
(line 958); when the response reports `overall_safety` of "unsafe" or
"questionable" the image is blurred and handed to `addOverlayToImage`,
and otherwise the saved style is written back, leaving the displayed image
as it was. The `action` field of the response is never read. -/
def processImageApplyVerdict (img : ImgNode) (data : ImageAnalysisResponse) :
    ImgNode :=
  let entry := { img with originalStyleSaved := some img.blurred }
  if data.overallSafety = "unsafe".toList
      ∨ data.overallSafety = "questionable".toList then
    addOverlayToImageStep { entry with blurred := true }
  else
    { entry with blurred := img.blurred }

/-- One image under the global restore sweep (`restoreOriginalContent`).
The first sweep (content-new.js line 2132) removes every
`socioio-image-wrapper` and overlay node from its parent: a wrapped image
leaves the document together with its wrapper. The image loop (lines
2141-2164) then runs over `document.querySelectorAll`, which reaches only
images still attached to the document; for those it clears the blur and
the filtered class (the unwrap branch at lines 2155-2160 cannot fire,
since every wrapper was already detached, and the style saved in
`data-original-style` is never written back). -/
def restoreImgElem (img : ImgNode) : ImgNode :=
  let afterSweep :=
    if img.inWrapper then
      { img with attachedToDocument := false, hasOverlay := false }
    else
      { img with hasOverlay := false }
  if afterSweep.attachedToDocument = true
      ∧ (afterSweep.blurred = true ∨ afterSweep.filteredImgClass = true) then
    { afterSweep with
        blurred := false
        filteredImgClass := false
        inWrapper := false }
  else afterSweep

/-- The text and image elements of the live document, as far as the
restore sweep is concerned. -/
structure DocumentState where
  elems : List TextElem
  imgs : List ImgNode
  deriving DecidableEq, Repr

/-- Global restore (`restoreOriginalContent`, content-new.js lines
2128-2190) over the whole document: the wrapper, overlay and indicator
nodes are swept away (line 2132), every image still reachable in the
document is unblurred (lines 2141-2164), and every element carrying the
filtered text class has its saved text written back (lines 2167-2178). -/
def restoreOriginalContent (p : DocumentState) : DocumentState :=
  { elems := p.elems.map restoreSweepElem
    imgs := p.imgs.map restoreImgElem }

/-- Application of a late-arriving verdict: `processTextElement` never reads
the `isEnabled` flag (content-new.js lines 1540-1659 contain no check of
it), so the element update is the same function whatever value the flag has
at verdict-arrival time. -/
def lateVerdictApplication (isEnabledAtArrival : Bool) (e : TextElem)
    (outcome : AnalysisOutcome) : TextElem × ProcStatus :=
  processTextElement e outcome

/-- The kind of a queued candidate (`item.type` in the source). -/
inductive ItemType
  | text
  | image
  deriving DecidableEq, Repr

/-- One entry of the processing queue: its kind and a handle to the live DOM
element it refers to. -/
structure QueueItem where
  ty : ItemType
  elemRef : Nat
  deriving DecidableEq, Repr

/-- The process-wide pipeline state the dispatcher reads and writes:
`isEnabled`, `backendRunning`, `processingQueue` and `currentlyProcessing`. -/
structure PipelineState where
  isEnabled : Bool
  backendRunning : Bool
  processingQueue : List QueueItem
  currentlyProcessing : Bool
  deriving DecidableEq, Repr

/-- Batch size drained per dispatch cycle. `config.processing.batchSize` is
10 in the source (content-new.js line 23); the bare `BATCH_SIZE` constant
read by `processNextBatch` is declared in a file not present here.
Modelled from the spec: a fixed batch size of 10. -/
def BATCH_SIZE : Nat := 10

/-- The guard of `processNextBatch` (content-new.js line 1365): a new cycle
is refused while one is running, when the queue is empty, or when the
pipeline is disabled. -/
def dispatchGuardBlocked (s : PipelineState) : Bool :=
  s.currentlyProcessing || s.processingQueue.length == 0 || !s.isEnabled

/-- The synchronous start of a dispatch cycle (`processNextBatch`,
content-new.js lines 1364-1380): when the guard blocks, nothing happens and
no batch is taken; otherwise the in-flight flag is set and
`splice(0, BATCH_SIZE)` removes up to `BATCH_SIZE` items from the queue
head, which become the batch handed to the analysis fan-out. -/
def processNextBatchStart (s : PipelineState) :
    PipelineState × Option (List QueueItem) :=
  if dispatchGuardBlocked s then
    (s, none)
  else
    ({ s with
        currentlyProcessing := true
        processingQueue := s.processingQueue.drop BATCH_SIZE },
     some (s.processingQueue.take BATCH_SIZE))

/-- How one batch item settles: `Promise.allSettled` reports each promise as
fulfilled with its result or rejected. -/
inductive SettledResult
  | fulfilled (r : ProcStatus)
  | rejected
  deriving DecidableEq, Repr

/-- The fan-out and fan-in of one cycle: every batch item is handed to
`processElement`, and `Promise.allSettled` yields exactly one settled
result per item (content-new.js lines 1380-1383). -/
def batchSettle (outcome : QueueItem → SettledResult)
    (batch : List QueueItem) : List SettledResult :=
  batch.map outcome

/-- The `allSettled` continuation of `processNextBatch` (content-new.js
lines 1383-1404): once every item of the batch has settled, the in-flight
flag is cleared, and a follow-up cycle is scheduled after `BATCH_DELAY`
exactly when the queue is non-empty. -/
def processNextBatchComplete (s : PipelineState) : PipelineState × Bool :=
  ({ s with currentlyProcessing := false },
   decide (0 < s.processingQueue.length))

/-- Outcome of the health-check ping issued by `checkBackendStatus`. -/
inductive PingOutcome
  | success
  | failure
  deriving DecidableEq, Repr

/-- The effect of one run of the periodic health check on the
`backendRunning` flag (`checkBackendStatus`, content-new.js lines 488-557):
the flag is forced to true on entry, set to true again when the ping
succeeds, and deliberately left true when the ping fails. -/
def checkBackendStatusFlag (previousFlag : Bool) (ping : PingOutcome) : Bool :=
  match ping with
  | PingOutcome.success => true
  | PingOutcome.failure => true

/-- Where an analysis call is sent. -/
inductive RemoteTarget
  | cloud
  | localServer
  | noCall
  deriving DecidableEq, Repr

/-- The routing decision of `analyzeText` (content-new.js line 200): the
availability flag only selects the cloud or the local base URL; a remote
request is attempted either way, and the local fallback runs only when that
request fails. -/
def analyzeTextRoute (backendAvailable : Bool) : RemoteTarget :=
  if backendAvailable then RemoteTarget.cloud else RemoteTarget.localServer

/-- The routing decision of `processImage` (content-new.js lines 966-1000):
with the flag down, the image is not analyzed at all (its temporary styling
is removed and no request is made). -/
def processImageRoute (backendRunning : Bool) : RemoteTarget :=
  if backendRunning then RemoteTarget.cloud else RemoteTarget.noCall

/-- An image element, restricted to the fields the discovery and queueing
paths read. -/
structure ImgElem where
  src : List Char
  alt : List Char
  naturalWidth : Nat
  naturalHeight : Nat
  complete : Bool
  hasExclusionClass : Bool
  deriving DecidableEq, Repr

/-- The safe-source allow-list used by `applyImmediateBlurToAllImages`
(content-new.js lines 761-771). -/
def safeImageSourcesInit : List (List Char) :=
  ["wikipedia.org".toList, "wikimedia.org".toList, "github.com".toList,
   "googleusercontent.com/a/".toList, "gravatar.com".toList,
   "maps.gstatic.com".toList, "schema.org".toList, "w3.org".toList,
   "placeholder.com".toList]

/-- The sensitive keywords shared by the image heuristics (content-new.js
line 742). -/
def sensitiveKeywords : List (List Char) :=
  ["nsfw".toList, "adult".toList, "xxx".toList, "porn".toList,
   "nude".toList, "sex".toList]

/-- What `applyImmediateBlurToAllImages` does with one image. -/
inductive QueueDecision
  | skipped
  | queuedHigh
  | queuedNormal
  deriving DecidableEq, Repr

/-- The per-image decision of `applyImmediateBlurToAllImages`
(content-new.js lines 751-813): images below 50 pixels in either natural
dimension and images from safe sources are skipped; images whose source,
alt text or page URL carries a sensitive keyword are queued with high
priority; the rest are queued unless already processed. -/
def applyImmediateBlurDecision (pageUrl : List Char) (img : ImgElem)
    (alreadyProcessed : Bool) : QueueDecision :=
  if img.naturalWidth < 50 ∨ img.naturalHeight < 50 then
    QueueDecision.skipped
  else if safeImageSourcesInit.any
      (fun s => containsSub s (toLowerList img.src)) then
    QueueDecision.skipped
  else if sensitiveKeywords.any
        (fun k => containsSub k (toLowerList img.src)
          || containsSub k (toLowerList img.alt))
      ∨ sensitiveKeywords.any
        (fun k => containsSub k (toLowerList pageUrl)) then
    QueueDecision.queuedHigh
  else if alreadyProcessed then
    QueueDecision.skipped
  else
    QueueDecision.queuedNormal

/-- One image through `addImagesToProcessingQueue` (content-new.js lines
1232-1255): an image with a non-empty source and without the exclusion
class is appended to the processing queue; there is no dimension check on
this path. -/
def addImageToQueueStep (q : List ImgElem) (img : ImgElem) : List ImgElem :=
  if img.src = [] then q
  else if img.hasExclusionClass then q
  else q ++ [img]

/-- `addImagesToProcessingQueue` (content-new.js lines 1228-1266) over a
scanned image list, starting from the current queue. -/
def addImagesToProcessingQueue (imgs : List ImgElem) (q : List ImgElem) :
    List ImgElem :=
  imgs.foldl addImageToQueueStep q

/-- A connected element with ordinary text, used to exercise concrete runs. -/
def elemOrdinary : TextElem :=
  { isConnected := true
    textContent := "a perfectly ordinary sentence".toList
    originalTextAttr := none
    filteredClass := false
    hasIndicator := false }

/-- A connected element whose text the fallback lists match. -/
def elemProfane : TextElem :=
  { isConnected := true
    textContent := "this is shit content".toList
    originalTextAttr := none
    filteredClass := false
    hasIndicator := false }

/-- A connected element receiving an encrypt verdict in the C5 scenario. -/
def elemEncrypt : TextElem :=
  { isConnected := true
    textContent := "hello wonderful world".toList
    originalTextAttr := none
    filteredClass := false
    hasIndicator := false }

/-- The element filtered and then restored in the C6 scenario. -/
def elemRoundTrip : TextElem :=
  { isConnected := true
    textContent := "  some page paragraph text  ".toList
    originalTextAttr := none
    filteredClass := false
    hasIndicator := false }

/-- A fresh, attached, unfiltered image element. -/
def imgConnected : ImgNode :=
  { blurred := false
    originalStyleSaved := none
    filteredImgClass := false
    hasOverlay := false
    inWrapper := false
    attachedToDocument := true }

/-- An image analysis response whose classification is unsafe; its action
field carries `remove`, which the image path never reads. -/
def imageRespUnsafe : ImageAnalysisResponse :=
  { action := FilterAction.remove, overallSafety := "unsafe".toList }

/-- An image analysis response classified safe although its action field
carries `remove`. -/
def imageRespSafeRemove : ImageAnalysisResponse :=
  { action := FilterAction.remove, overallSafety := "safe".toList }

/-- A document holding the filtered form of `elemRoundTrip` and the
filtered (blurred, wrapped, overlaid) form of `imgConnected`. -/
def docRoundTrip : DocumentState :=
  { elems := [(processTextElement elemRoundTrip
      (AnalysisOutcome.response FilterAction.remove)).1]
    imgs := [processImageApplyVerdict imgConnected imageRespUnsafe] }

/-- A pipeline state with a dispatch cycle already in flight. -/
def stateBusy : PipelineState :=
  { isEnabled := true
    backendRunning := true
    processingQueue := [{ ty := ItemType.text, elemRef := 1 }]
    currentlyProcessing := true }

/-- An idle, enabled pipeline state with two queued candidates. -/
def stateReady : PipelineState :=
  { isEnabled := true
    backendRunning := true
    processingQueue :=
      [{ ty := ItemType.text, elemRef := 1 },
       { ty := ItemType.image, elemRef := 2 }]
    currentlyProcessing := false }

/-- An image of natural size 40 by 40 with an ordinary source. -/
def smallImg : ImgElem :=
  { src := "https://example.com/photo.jpg".toList
    alt := []
    naturalWidth := 40
    naturalHeight := 40
    complete := true
    hasExclusionClass := false }

example : matchesWholeWord "shit".toList (toLowerList "This is SHIT ok".toList) = true := by decide
example : matchesWholeWord "ass".toList (toLowerList "classic grass".toList) = false := by decide
example : textFallbackAction "I hate everyone, kill them all".toList = FilterAction.allow := by decide
example : textFallbackAction "we will kill all of them".toList = FilterAction.remove := by decide
example :
    (processTextElement
      { isConnected := true, textContent := "  hello there  ".toList,
        originalTextAttr := none, filteredClass := false, hasIndicator := false }
      (AnalysisOutcome.response FilterAction.remove)).1.textContent
      = "[Content filtered]".toList := by decide
example :
    (processTextElement
      { isConnected := true, textContent := "hello there".toList,
        originalTextAttr := none, filteredClass := false, hasIndicator := false }
      (AnalysisOutcome.response FilterAction.encrypt)).2 = ProcStatus.kept := by decide

/-- The pre-request phase either skips or stores the trimmed text; when the
element is connected and the trimmed text has length at least 5, it
succeeds and writes the `data-original-text` attribute. -/
theorem processTextElementPre_ok (e : TextElem) (hconn : e.isConnected = true)
    (hlen : 5 ≤ (trimList e.textContent).length) :
    processTextElementPre e
      = Except.ok ({ e with originalTextAttr := some (trimList e.textContent) },
          trimList e.textContent) := by
  have hne : ¬ trimList e.textContent = [] := by
    intro h0
    rw [h0] at hlen
    simp at hlen
  have hlt : ¬ (trimList e.textContent).length < 5 := Nat.not_lt.mpr hlen
  simp [processTextElementPre, hconn, hne, hlt]

/-- Case analysis of the pre-request phase: it either skips, or stores the
trimmed (non-empty) text in the attribute. -/
theorem processTextElementPre_cases (e : TextElem) :
    processTextElementPre e = Except.error ProcStatus.skipped ∨
    (processTextElementPre e
        = Except.ok ({ e with originalTextAttr := some (trimList e.textContent) },
            trimList e.textContent)
      ∧ trimList e.textContent ≠ []) := by
  unfold processTextElementPre
  split
  · exact Or.inl rfl
  · split
    next h2 => exact Or.inl rfl
    next h2 =>
      split
      · exact Or.inl rfl
      · exact Or.inr ⟨rfl, h2⟩

/-- A run that reports `filtered` stored the trimmed original text, left it
in the attribute, and set the filtered class. -/
theorem processTextElement_filtered_inv (e : TextElem)
    (outcome : AnalysisOutcome)
    (hfil : (processTextElement e outcome).2 = ProcStatus.filtered) :
    trimList e.textContent ≠ [] ∧
    (processTextElement e outcome).1.originalTextAttr
      = some (trimList e.textContent) ∧
    (processTextElement e outcome).1.filteredClass = true ∧
    (processTextElement e outcome).1.hasIndicator = true := by
  rcases processTextElementPre_cases e with h | ⟨h, hne⟩
  · simp only [processTextElement, h] at hfil
    exact absurd hfil (by decide)
  · refine ⟨hne, ?_⟩
    simp only [processTextElement, h] at hfil ⊢
    cases outcome with
    | response action => cases action <;> simp_all
    | networkFailure =>
      by_cases hm :
          (fallbackIsProfanity (trimList e.textContent)
            || fallbackIsHateSpeech (trimList e.textContent)) = true <;>
        simp_all

/-- A blocked guard makes the dispatcher start a no-op. -/
theorem processNextBatchStart_blocked (t : PipelineState)
    (h : dispatchGuardBlocked t = true) :
    processNextBatchStart t = (t, none) := by
  simp [processNextBatchStart, h]

/-- C1: for every pipeline state in which a dispatch cycle is already
running (`currentlyProcessing` true), or the processing queue is empty, or
the pipeline is disabled, invoking the dispatcher (`processNextBatch`) is a
no-op: it starts no batch and leaves the queue, and the whole state,
unchanged. -/
theorem claim_C1 (s : PipelineState)
    (h : s.currentlyProcessing = true ∨ s.processingQueue = [] ∨
      s.isEnabled = false) :
    (processNextBatchStart s).2 = none ∧
    (processNextBatchStart s).1.processingQueue = s.processingQueue ∧
    (processNextBatchStart s).1 = s := by
  have hg : dispatchGuardBlocked s = true := by
    rcases h with h | h | h <;> simp [dispatchGuardBlocked, h]
  simp [processNextBatchStart, hg]

/-- C1 witness: the dispatcher is a no-op on a concrete state with a cycle
in flight. -/
theorem claim_C1_witness :
    (processNextBatchStart stateBusy).2 = none ∧
    (processNextBatchStart stateBusy).1.processingQueue
      = stateBusy.processingQueue ∧
    (processNextBatchStart stateBusy).1 = stateBusy :=
  claim_C1 stateBusy (Or.inl rfl)

/-- C2: when the guard passes, a dispatch cycle takes exactly the first
`BATCH_SIZE` (10) queued items (so at most 10), sets the in-flight flag,
hands every removed item to the analysis fan-out whose fan-in produces one
settled result per item, refuses any further cycle while the batch is in
flight (so cycle N+1 cannot start before the fan-in of cycle N completes), and
on completion clears the flag, preserves the queue, and schedules the next
cycle exactly when the queue is non-empty. -/
theorem claim_C2 (s : PipelineState) (outcome : QueueItem → SettledResult)
    (h1 : s.currentlyProcessing = false) (h2 : s.processingQueue ≠ [])
    (h3 : s.isEnabled = true) :
    (processNextBatchStart s).2 = some (s.processingQueue.take BATCH_SIZE) ∧
    (s.processingQueue.take BATCH_SIZE).length ≤ BATCH_SIZE ∧
    (processNextBatchStart s).1.processingQueue
      = s.processingQueue.drop BATCH_SIZE ∧
    (processNextBatchStart s).1.currentlyProcessing = true ∧
    (batchSettle outcome (s.processingQueue.take BATCH_SIZE)).length
      = (s.processingQueue.take BATCH_SIZE).length ∧
    (processNextBatchStart (processNextBatchStart s).1).2 = none ∧
    (processNextBatchStart (processNextBatchStart s).1).1
      = (processNextBatchStart s).1 ∧
    (processNextBatchComplete (processNextBatchStart s).1).1.currentlyProcessing
      = false ∧
    (processNextBatchComplete (processNextBatchStart s).1).1.processingQueue
      = (processNextBatchStart s).1.processingQueue ∧
    ((processNextBatchComplete (processNextBatchStart s).1).2 = true ↔
      (processNextBatchStart s).1.processingQueue ≠ []) := by
  have hg : dispatchGuardBlocked s = false := by
    simp [dispatchGuardBlocked, h1, h3, List.length_eq_zero, h2]
  have hstart :
      processNextBatchStart s
        = ({ s with
              currentlyProcessing := true
              processingQueue := s.processingQueue.drop BATCH_SIZE },
           some (s.processingQueue.take BATCH_SIZE)) := by
    simp [processNextBatchStart, hg]
  have hg2 :
      dispatchGuardBlocked (processNextBatchStart s).1 = true := by
    rw [hstart]
    simp [dispatchGuardBlocked]
  refine ⟨?_, ?_, ?_, ?_, ?_, ?_, ?_, ?_, ?_, ?_⟩
  · rw [hstart]
  · rw [List.length_take]
    exact min_le_left _ _
  · rw [hstart]
  · rw [hstart]
  · simp [batchSettle]
  · rw [processNextBatchStart_blocked _ hg2]
  · rw [processNextBatchStart_blocked _ hg2]
  · rfl
  · rfl
  · simp [processNextBatchComplete, List.length_pos]

/-- C2 witness: a concrete idle enabled state with two queued items,
every item settling as fulfilled. -/
theorem claim_C2_witness :
    (processNextBatchStart stateReady).2
      = some (stateReady.processingQueue.take BATCH_SIZE) ∧
    (stateReady.processingQueue.take BATCH_SIZE).length ≤ BATCH_SIZE ∧
    (processNextBatchStart stateReady).1.processingQueue
      = stateReady.processingQueue.drop BATCH_SIZE ∧
    (processNextBatchStart stateReady).1.currentlyProcessing = true ∧
    (batchSettle (fun _ => SettledResult.fulfilled ProcStatus.kept)
        (stateReady.processingQueue.take BATCH_SIZE)).length
      = (stateReady.processingQueue.take BATCH_SIZE).length ∧
    (processNextBatchStart (processNextBatchStart stateReady).1).2 = none ∧
    (processNextBatchStart (processNextBatchStart stateReady).1).1
      = (processNextBatchStart stateReady).1 ∧
    (processNextBatchComplete
        (processNextBatchStart stateReady).1).1.currentlyProcessing = false ∧
    (processNextBatchComplete
        (processNextBatchStart stateReady).1).1.processingQueue
      = (processNextBatchStart stateReady).1.processingQueue ∧
    ((processNextBatchComplete (processNextBatchStart stateReady).1).2 = true ↔
      (processNextBatchStart stateReady).1.processingQueue ≠ []) :=
  claim_C2 stateReady (fun _ => SettledResult.fulfilled ProcStatus.kept)
    rfl (by decide) rfl

/-- C3: with the analysis request failing, the local text fallback yields
`remove` for every text in which some word of the fixed profanity or
hate-speech list occurs as a whole word, case-insensitively, and `allow`
for every text in which no listed word so occurs. -/
theorem claim_C3 (text : List Char) :
    ((profanityWordsFallback ++ hateWordsFallback).any
        (fun w => matchesWholeWord w (toLowerList text)) = true →
      textFallbackAction text = FilterAction.remove) ∧
    ((profanityWordsFallback ++ hateWordsFallback).any
        (fun w => matchesWholeWord w (toLowerList text)) = false →
      textFallbackAction text = FilterAction.allow) := by
  have hsplit :
      (fallbackIsProfanity text || fallbackIsHateSpeech text)
        = (profanityWordsFallback ++ hateWordsFallback).any
            (fun w => matchesWholeWord w (toLowerList text)) := by
    simp [fallbackIsProfanity, fallbackIsHateSpeech, List.any_append]
  constructor <;> intro h <;> simp [textFallbackAction, hsplit, h]

/-- C3 witness: a profane text is removed and a clean text is allowed. -/
theorem claim_C3_witness :
    textFallbackAction "this is shit content".toList = FilterAction.remove ∧
    textFallbackAction "have a lovely day".toList = FilterAction.allow :=
  ⟨(claim_C3 "this is shit content".toList).1 (by decide),
   (claim_C3 "have a lovely day".toList).2 (by decide)⟩

/-- C4: the fallback hate-speech list contains the phrase "kill all", yet
the text "I hate everyone, kill them all" is not matched (word-boundary
matching of the whole phrase, not loose substring matching of its parts),
so the text fallback yields `allow` for it. -/
theorem claim_C4 :
    "kill all".toList ∈ hateWordsFallback ∧
    fallbackIsHateSpeech "I hate everyone, kill them all".toList = false ∧
    fallbackIsProfanity "I hate everyone, kill them all".toList = false ∧
    textFallbackAction "I hate everyone, kill them all".toList
      = FilterAction.allow := by
  decide

/-- C5 counterexample: an `encrypt` verdict on a connected text element
mutates nothing — the displayed text, the filtered class and the indicator
are all unchanged and the element is reported `kept` — refuting the claim
that a `remove` or `encrypt` verdict always causes a DOM mutation. -/
theorem claim_C5_counterexample :
    (processTextElement elemEncrypt
        (AnalysisOutcome.response FilterAction.encrypt)).1.textContent
      = elemEncrypt.textContent ∧
    (processTextElement elemEncrypt
        (AnalysisOutcome.response FilterAction.encrypt)).1.filteredClass
      = false ∧
    (processTextElement elemEncrypt
        (AnalysisOutcome.response FilterAction.encrypt)).1.hasIndicator
      = false ∧
    (processTextElement elemEncrypt
        (AnalysisOutcome.response FilterAction.encrypt)).2
      = ProcStatus.kept := by
  decide

/-- C5 amended: for every connected text element with trimmed text of
length at least 5, a verdict whose action is `allow` or `encrypt` leaves
the displayed content, the filtered class and the indicator unchanged (the
text applier acts only on `remove`), and a verdict whose action is
`remove` always replaces the displayed content with the masked text and
marks the element filtered; for every image processed with a response, the
`action` field is ignored — the image is blurred and overlaid exactly when
the response reports `overall_safety` unsafe or questionable, and
otherwise its displayed state (blur, overlay, filtered class) is
unchanged. -/
theorem claim_C5_amended (e : TextElem) (action : FilterAction)
    (img : ImgNode) (data : ImageAnalysisResponse)
    (hconn : e.isConnected = true)
    (hlen : 5 ≤ (trimList e.textContent).length) :
    ((action = FilterAction.allow ∨ action = FilterAction.encrypt) →
      (processTextElement e (AnalysisOutcome.response action)).1.textContent
          = e.textContent ∧
      (processTextElement e (AnalysisOutcome.response action)).1.filteredClass
          = e.filteredClass ∧
      (processTextElement e (AnalysisOutcome.response action)).1.hasIndicator
          = e.hasIndicator ∧
      (processTextElement e (AnalysisOutcome.response action)).2
          = ProcStatus.kept) ∧
    (action = FilterAction.remove →
      (processTextElement e (AnalysisOutcome.response action)).1.textContent
          = filteredDisplayText (trimList e.textContent) ∧
      (processTextElement e (AnalysisOutcome.response action)).1.filteredClass
          = true ∧
      (processTextElement e (AnalysisOutcome.response action)).2
          = ProcStatus.filtered) ∧
    ((data.overallSafety = "unsafe".toList
        ∨ data.overallSafety = "questionable".toList) →
      (processImageApplyVerdict img data).blurred = true ∧
      (processImageApplyVerdict img data).hasOverlay = true) ∧
    (¬ (data.overallSafety = "unsafe".toList
        ∨ data.overallSafety = "questionable".toList) →
      (processImageApplyVerdict img data).blurred = img.blurred ∧
      (processImageApplyVerdict img data).hasOverlay = img.hasOverlay ∧
      (processImageApplyVerdict img data).filteredImgClass
          = img.filteredImgClass) ∧
    (∀ a : FilterAction,
      processImageApplyVerdict img { data with action := a }
        = processImageApplyVerdict img data) := by
  have hpre := processTextElementPre_ok e hconn hlen
  refine ⟨?_, ?_, ?_, ?_, fun a => rfl⟩
  · rintro (rfl | rfl) <;> simp [processTextElement, hpre]
  · rintro rfl
    simp [processTextElement, hpre]
  · intro h
    rw [processImageApplyVerdict]
    rw [if_pos h]
    by_cases hov : img.hasOverlay = true <;>
      simp [addOverlayToImageStep, hov]
  · intro h
    rw [processImageApplyVerdict]
    rw [if_neg h]
    exact ⟨rfl, rfl, rfl⟩

/-- C5 amended witness: an encrypt verdict on a concrete connected text
element and an unsafe-classified response on a concrete image. -/
theorem claim_C5_amended_witness :
    ((FilterAction.encrypt = FilterAction.allow ∨
        FilterAction.encrypt = FilterAction.encrypt) →
      (processTextElement elemOrdinary
          (AnalysisOutcome.response FilterAction.encrypt)).1.textContent
        = elemOrdinary.textContent ∧
      (processTextElement elemOrdinary
          (AnalysisOutcome.response FilterAction.encrypt)).1.filteredClass
        = elemOrdinary.filteredClass ∧
      (processTextElement elemOrdinary
          (AnalysisOutcome.response FilterAction.encrypt)).1.hasIndicator
        = elemOrdinary.hasIndicator ∧
      (processTextElement elemOrdinary
          (AnalysisOutcome.response FilterAction.encrypt)).2
        = ProcStatus.kept) ∧
    (FilterAction.encrypt = FilterAction.remove →
      (processTextElement elemOrdinary
          (AnalysisOutcome.response FilterAction.encrypt)).1.textContent
        = filteredDisplayText (trimList elemOrdinary.textContent) ∧
      (processTextElement elemOrdinary
          (AnalysisOutcome.response FilterAction.encrypt)).1.filteredClass
        = true ∧
      (processTextElement elemOrdinary
          (AnalysisOutcome.response FilterAction.encrypt)).2
        = ProcStatus.filtered) ∧
    ((imageRespUnsafe.overallSafety = "unsafe".toList
        ∨ imageRespUnsafe.overallSafety = "questionable".toList) →
      (processImageApplyVerdict imgConnected imageRespUnsafe).blurred
          = true ∧
      (processImageApplyVerdict imgConnected imageRespUnsafe).hasOverlay
          = true) ∧
    (¬ (imageRespUnsafe.overallSafety = "unsafe".toList
        ∨ imageRespUnsafe.overallSafety = "questionable".toList) →
      (processImageApplyVerdict imgConnected imageRespUnsafe).blurred
          = imgConnected.blurred ∧
      (processImageApplyVerdict imgConnected imageRespUnsafe).hasOverlay
          = imgConnected.hasOverlay ∧
      (processImageApplyVerdict imgConnected imageRespUnsafe).filteredImgClass
          = imgConnected.filteredImgClass) ∧
    (∀ a : FilterAction,
      processImageApplyVerdict imgConnected { imageRespUnsafe with action := a }
        = processImageApplyVerdict imgConnected imageRespUnsafe) :=
  claim_C5_amended elemOrdinary FilterAction.encrypt imgConnected
    imageRespUnsafe rfl (by decide)

/-- C6: code evaluated at the failing input. A connected image filtered by
the unsafe-verdict path (blurred, classed, moved inside a wrapper with an
overlay by `addOverlayToImage`) is not reversed by the global restore: the
sweep at content-new.js line 2132 removes its wrapper with the image still
inside, detaching the image from the document, after which the
image-restore loop (lines 2141-2164) can no longer find it — the image
stays blurred, keeps the filtered class, and the style saved in
`data-original-style` at filter time is never written back (the unwrap
branch at lines 2155-2160 is unreachable). The text half of the claim does
hold: the filtered text element of the same document is restored
bit-identically to its saved trimmed text with indicator and class
removed. This contradicts the claim, and the reversibility the spec
requires, for image elements. -/
theorem claim_C6_code_bug :
    (processImageApplyVerdict imgConnected imageRespUnsafe).blurred = true ∧
    (processImageApplyVerdict imgConnected imageRespUnsafe).inWrapper
      = true ∧
    (processImageApplyVerdict imgConnected imageRespUnsafe).hasOverlay
      = true ∧
    (processImageApplyVerdict imgConnected
        imageRespUnsafe).attachedToDocument = true ∧
    (restoreOriginalContent docRoundTrip).imgs
      = [restoreImgElem (processImageApplyVerdict imgConnected
          imageRespUnsafe)] ∧
    (restoreImgElem (processImageApplyVerdict imgConnected
        imageRespUnsafe)).attachedToDocument = false ∧
    (restoreImgElem (processImageApplyVerdict imgConnected
        imageRespUnsafe)).blurred = true ∧
    (restoreImgElem (processImageApplyVerdict imgConnected
        imageRespUnsafe)).filteredImgClass = true ∧
    (restoreImgElem (processImageApplyVerdict imgConnected
        imageRespUnsafe)).originalStyleSaved = some false ∧
    (restoreOriginalContent docRoundTrip).elems
      = [restoreSweepElem (processTextElement elemRoundTrip
          (AnalysisOutcome.response FilterAction.remove)).1] ∧
    (restoreSweepElem (processTextElement elemRoundTrip
        (AnalysisOutcome.response FilterAction.remove)).1).textContent
      = trimList elemRoundTrip.textContent ∧
    (restoreSweepElem (processTextElement elemRoundTrip
        (AnalysisOutcome.response FilterAction.remove)).1).hasIndicator
      = false ∧
    (restoreSweepElem (processTextElement elemRoundTrip
        (AnalysisOutcome.response FilterAction.remove)).1).filteredClass
      = false := by
  decide

/-- C7: the code evaluated at the failing input. With the pipeline disabled
at verdict-arrival time, a `remove` verdict for an analysis call that was
already in flight is still applied: the element is filtered, its displayed
text is replaced and an indicator is attached — `processTextElement`
contains no second check of the enabled flag, so the update is the same
function of the element for both flag values. This contradicts the claim
(and the design requirement) that a late verdict is detected and
discarded. -/
theorem claim_C7_code_bug :
    (lateVerdictApplication false elemOrdinary
        (AnalysisOutcome.response FilterAction.remove)).2
      = ProcStatus.filtered ∧
    (lateVerdictApplication false elemOrdinary
        (AnalysisOutcome.response FilterAction.remove)).1.filteredClass
      = true ∧
    (lateVerdictApplication false elemOrdinary
        (AnalysisOutcome.response FilterAction.remove)).1.textContent
      ≠ elemOrdinary.textContent ∧
    (∀ flag : Bool,
      lateVerdictApplication flag elemOrdinary
          (AnalysisOutcome.response FilterAction.remove)
        = lateVerdictApplication true elemOrdinary
            (AnalysisOutcome.response FilterAction.remove)) := by
  refine ⟨by decide, by decide, by decide, fun flag => rfl⟩

/-- C8 counterexample: the periodic health check leaves the availability
flag true even when the ping fails (whatever its previous value), and with
the flag recording the service as unavailable the text Analysis Client
still attempts a remote call (it merely switches to the local base URL)
instead of routing directly to the fallback. -/
theorem claim_C8_counterexample :
    checkBackendStatusFlag true PingOutcome.failure = true ∧
    checkBackendStatusFlag false PingOutcome.failure = true ∧
    analyzeTextRoute false = RemoteTarget.localServer ∧
    analyzeTextRoute false ≠ RemoteTarget.noCall := by
  decide

/-- C8 amended: the health check runs periodically but always records the
service as available, for every previous flag value and ping outcome; with
the flag recording the service as unavailable, the image path skips the
remote call, while the text path still attempts a remote call for either
flag value and reaches the local fallback only when the request itself
fails (a failing request on profane text is filtered by the fallback). -/
theorem claim_C8_amended :
    (∀ previous : Bool, ∀ ping : PingOutcome,
      checkBackendStatusFlag previous ping = true) ∧
    processImageRoute false = RemoteTarget.noCall ∧
    (∀ flag : Bool, analyzeTextRoute flag ≠ RemoteTarget.noCall) ∧
    (processTextElement elemProfane AnalysisOutcome.networkFailure).2
      = ProcStatus.filtered := by
  refine ⟨fun previous ping => ?_, by decide, fun flag => ?_, by decide⟩
  · cases ping <;> rfl
  · cases flag <;> decide

/-- C9 counterexample: an image whose `naturalWidth` is 40, with an
ordinary source and no exclusion class, is appended to the processing
queue by `addImagesToProcessingQueue`, which has no dimension check — so
small images are not kept out of the analysis queue by every queueing
path. -/
theorem claim_C9_counterexample :
    smallImg.naturalWidth = 40 ∧
    addImagesToProcessingQueue [smallImg] [] = [smallImg] := by
  decide

/-- C9 amended: the immediate-blur discovery path does skip every image
below the 50-pixel natural-dimension threshold, for every page URL and
processed flag, but the scan path `addImagesToProcessingQueue` enqueues
any image with a non-empty source and no exclusion class regardless of its
dimensions, so an image with `naturalWidth` 40 can still be enqueued for
analysis. -/
theorem claim_C9_amended (pageUrl : List Char) (img : ImgElem)
    (alreadyProcessed : Bool) (hsmall : img.naturalWidth < 50) :
    applyImmediateBlurDecision pageUrl img alreadyProcessed
      = QueueDecision.skipped ∧
    (img.src ≠ [] → img.hasExclusionClass = false →
      addImagesToProcessingQueue [img] [] = [img]) := by
  constructor
  · rw [applyImmediateBlurDecision, if_pos (Or.inl hsmall)]
  · intro h1 h2
    simp [addImagesToProcessingQueue, addImageToQueueStep, h1, h2]

/-- C9 amended witness: the concrete 40-pixel image is skipped by the
immediate-blur path and enqueued by the scan path. -/
theorem claim_C9_amended_witness :
    applyImmediateBlurDecision "https://example.com/page".toList smallImg
        false
      = QueueDecision.skipped ∧
    addImagesToProcessingQueue [smallImg] [] = [smallImg] := by
  have h := claim_C9_amended "https://example.com/page".toList smallImg
    false (by decide)
  exact ⟨h.1, h.2 (by decide) (by decide)⟩

/-- C10: for every connected text element whose trimmed text has length at
least 5, the pre-request phase of `processTextElement` already stores the
trimmed text in `data-original-text` (so the write precedes the analysis
request), and after the full run the attribute still holds the trimmed
text for every possible outcome of the analysis — including a verdict of
`allow`. -/
theorem claim_C10 (e : TextElem) (hconn : e.isConnected = true)
    (hlen : 5 ≤ (trimList e.textContent).length) :
    processTextElementPre e
      = Except.ok ({ e with originalTextAttr := some (trimList e.textContent) },
          trimList e.textContent) ∧
    ∀ outcome : AnalysisOutcome,
      (processTextElement e outcome).1.originalTextAttr
        = some (trimList e.textContent) := by
  have hpre := processTextElementPre_ok e hconn hlen
  refine ⟨hpre, fun outcome => ?_⟩
  cases outcome with
  | response action => cases action <;> simp [processTextElement, hpre]
  | networkFailure =>
    by_cases hm :
        (fallbackIsProfanity (trimList e.textContent)
          || fallbackIsHateSpeech (trimList e.textContent)) = true <;>
      simp [processTextElement, hpre, hm]

/-- C10 witness: a concrete connected element keeps the attribute under an
`allow` verdict. -/
theorem claim_C10_witness :
    (processTextElementPre elemOrdinary
      = Except.ok
          ({ elemOrdinary with
              originalTextAttr := some (trimList elemOrdinary.textContent) },
           trimList elemOrdinary.textContent)) ∧
    (processTextElement elemOrdinary
        (AnalysisOutcome.response FilterAction.allow)).1.originalTextAttr
      = some (trimList elemOrdinary.textContent) :=
  ⟨(claim_C10 elemOrdinary rfl (by decide)).1,
   (claim_C10 elemOrdinary rfl (by decide)).2
      (AnalysisOutcome.response FilterAction.allow)⟩
